import Mathlib

/-!
Shallow embedding of the approval-and-merge orchestration engine of the
pipelines-as-code-prow repository: src/boussole/boussole.py and
src/prow/prow.py.

Modelling conventions:
the hosting API is modelled by an environment record Env that fixes the
responses the API returns; every embedded operation returns, next to its
result, the list of API events it performs, in the order it performs them.
A Python sys.exit n is modelled as Except.error n, a normal return as
Except.ok. Python falsy optional strings (None, and the pathological empty
string) are modelled with Option.none. Posted PR comments are modelled
structurally, by a Msg value carrying the fields each template consumes.
-/

/-- A PR issue comment as consumed by the vote scan: author login and body. -/
structure Comment where
  author : String
  body : String
deriving DecidableEq

/-- A PR commit: sha and commit message. -/
structure Commit where
  sha : String
  message : String
deriving DecidableEq

/-- Response of the collaborator-permission endpoint: HTTP status and the
permission field of the JSON body (none for missing or empty). -/
structure PermLookup where
  status : Nat
  permission : Option String
deriving DecidableEq

/-- Response of the merges endpoint used for a cherry-pick replay:
HTTP status, the sha field of the JSON body, and the raw text. -/
structure ReplayResp where
  status : Nat
  sha : String
  text : String
deriving DecidableEq

/-- The hosting API, as the responses it would return to each request the
engine can make. Single invocations are synchronous and read a fixed API
state, so the environment is a record of pure functions. -/
structure Env where
  commentsStatus : Nat
  comments : List Comment
  perm : String → PermLookup
  prStatusCode : Nat
  prState : String
  prBaseRef : String
  branchRefStatus : String → Nat
  branchRefSha : String → Option String
  createBranch : String → String → Bool
  commitsStatus : Nat
  commits : List Commit
  replay : String → String → ReplayResp
  mergeStatus : Nat

/-- Configuration inputs of PRHandler (from CLI or environment variables). -/
structure Config where
  prNum : String
  prSender : String
  commentSender : String
  lgtmThreshold : Int
  lgtmPermissions : List String
  mergeMethod : String

/-- Structured content of each posted PR comment template. -/
inductive Msg where
  | selfApproval (user : String)
  | insufficientPermissions (user : String) (permission : Option String)
  | notEnoughLgtm (validVotes : Nat) (threshold : Int)
  | lgtmBreakdown (validVotes : Nat) (threshold : Int)
      (users : List (String × Option String))
  | mergeFailed (prNum : String) (status : Nat)
  | successMerged (mergeMethod : String) (commentSender : String)
      (validVotes : Nat) (threshold : Int)
      (users : List (String × Option String))
  | cherryPickError (srcPr : String) (target : String) (statusCode : String)
      (errorText : String)
  | cherryPickSuccess (srcPr : String) (target : String) (user : String)
      (sha : String)
  | cherryPickConflict (prNum : String) (target : String) (current : Nat)
      (total : Nat) (sha : String)
deriving DecidableEq

/-- One API interaction performed by the engine. -/
inductive Event where
  | fetchComments
  | fetchPRStatus
  | fetchCommits
  | fetchBranch (branch : String)
  | permissionLookup (user : String)
  | postComment (m : Msg)
  | postReview
  | mergeCall
  | createBranchCall (branch : String) (sha : String)
  | replayCall (branch : String) (sha : String)
deriving DecidableEq

/-- Python word character for the word-boundary test of a regex. -/
def isWordChar (c : Char) : Bool := c.isAlphanum || c == '_'

/-- Whether the first list of characters begins the second one. -/
def charsBeginWith : List Char → List Char → Bool
  | [], _ => true
  | _ :: _, [] => false
  | p :: ps, c :: cs => p == c && charsBeginWith ps cs

/-- Embeds re.search of the anchored case-insensitive vote pattern /lgtm
followed by a word boundary, applied to a comment body, working on the
lowercased character list. The pattern appears identically in boussole.py
line 129 and prow.py line 295. -/
def matchesLgtm (body : String) : Bool :=
  let lower := body.data.map Char.toLower
  charsBeginWith ( "/lgtm").data lower &&
    (match lower.drop 5 with
     | [] => true
     | ch :: _ => !isWordChar ch)

/-- Embeds the Python dict insertion done by the vote scan: a first vote by
a user appends the user, a repeated vote leaves the key list unchanged. -/
def insertUser (users : List String) (u : String) : List String :=
  if users.contains u then users else users ++ [u]

/-- Embeds the comment-scanning loop of the vote tally (boussole.py lines
127-138, identical in prow.py lines 293-304): walk the comments in fetched
order; a body matching the vote pattern by the PR sender posts the
self-approval rejection and exits with code 1; any other matching body
records its author, deduplicated. -/
def scanVotes (cfg : Config) : List Comment → List String →
    List Event × Except Nat (List String)
  | [], acc => ([], Except.ok acc)
  | c :: rest, acc =>
    if matchesLgtm c.body then
      if c.author == cfg.prSender then
        ([Event.postComment (Msg.selfApproval c.author)], Except.error 1)
      else
        scanVotes cfg rest (insertUser acc c.author)
    else
      scanVotes cfg rest acc

/-- Embeds PRHandler._check_membership of boussole.py lines 149-174:
404 is the missing-collaborator soft failure, any other non-200 status is a
logged soft failure, an empty permission field is a logged soft failure,
and otherwise validity is membership of the configured permission set. -/
def Boussole.check_membership (env : Env) (cfg : Config) (user : String) :
    Option String × Bool :=
  let resp := env.perm user
  if resp.status == 404 then (none, false)
  else if resp.status != 200 then (none, false)
  else
    match resp.permission with
    | none => (none, false)
    | some p => (some p, cfg.lgtmPermissions.contains p)

/-- Embeds the permission loop of boussole.py lines 140-145: look up each
distinct voter in order, record its permission in the breakdown, and count
the valid ones. -/
def Boussole.tallyUsers (env : Env) (cfg : Config) :
    List String → (Nat × List (String × Option String)) × List Event
  | [] => ((0, []), [])
  | u :: rest =>
    let pv := Boussole.check_membership env cfg u
    let r := Boussole.tallyUsers env cfg rest
    (((if pv.2 then r.1.1 + 1 else r.1.1), (u, pv.1) :: r.1.2),
      Event.permissionLookup u :: r.2)

/-- Embeds PRHandler._fetch_and_validate_lgtm_votes of boussole.py lines
107-147: fetch the comments (a non-200 status exits with code 1), scan for
votes, then tally permissions per distinct voter. -/
def Boussole.fetch_and_validate_lgtm_votes (env : Env) (cfg : Config) :
    List Event × Except Nat (Nat × List (String × Option String)) :=
  if env.commentsStatus != 200 then ([Event.fetchComments], Except.error 1)
  else
    match scanVotes cfg env.comments [] with
    | (ev, Except.error n) => (Event.fetchComments :: ev, Except.error n)
    | (ev, Except.ok users) =>
      (Event.fetchComments :: ev ++ (Boussole.tallyUsers env cfg users).2,
        Except.ok (Boussole.tallyUsers env cfg users).1)

/-- Embeds PRHandler._get_pr_commits of boussole.py lines 176-184: a
non-200 status yields the empty list, otherwise the JSON commit list. -/
def Boussole.get_pr_commits (env : Env) : List Commit :=
  if env.commitsStatus != 200 then [] else env.commits

/-- Embeds PRHandler._get_branch_sha of boussole.py lines 205-213: a
non-200 status yields none, otherwise the sha field of the ref object. -/
def Boussole.get_branch_sha (env : Env) (branch : String) : Option String :=
  if env.branchRefStatus branch != 200 then none else env.branchRefSha branch

/-- Helper for stating where the currentSha of a cherry-pick job ends up: the
last element of a list of replay-produced shas, or the initial sha when no
replay succeeded yet. -/
def lastD (d : String) : List String → String
  | [] => d
  | s :: rest => lastD s rest

/-- Embeds the replay loop of PRHandler._perform_cherry_pick, boussole.py
lines 498-544, together with _handle_merge_conflict (lines 546-565): for
each commit, in order, issue a merges call with the target branch as base
and the commit sha as head; a 409 posts the structured conflict report and
stops with false; any other non-201 posts the generic cherry-pick error and
stops with false; a 201 advances currentSha to the returned sha. After the
last commit the success report carries the final currentSha. The third
component of the result is the currentSha of the job when the loop stops. -/
def Boussole.cherryPickLoop (env : Env) (cfg : Config) (target : String)
    (total : Nat) : List Commit → Nat → String → List Event × Bool × String
  | [], _, cur =>
    ([Event.postComment
        (Msg.cherryPickSuccess cfg.prNum target cfg.commentSender cur)],
      true, cur)
  | c :: rest, i, cur =>
    if (env.replay target c.sha).status == 409 then
      ([Event.replayCall target c.sha,
        Event.postComment
          (Msg.cherryPickConflict cfg.prNum target i total c.sha)],
        false, cur)
    else if (env.replay target c.sha).status != 201 then
      ([Event.replayCall target c.sha,
        Event.postComment
          (Msg.cherryPickError cfg.prNum target
            (toString (env.replay target c.sha).status)
            (env.replay target c.sha).text)],
        false, cur)
    else
      (Event.replayCall target c.sha ::
        (Boussole.cherryPickLoop env cfg target total rest (i + 1)
          (env.replay target c.sha).sha).1,
        (Boussole.cherryPickLoop env cfg target total rest (i + 1)
          (env.replay target c.sha).sha).2)

/-- Embeds PRHandler._perform_cherry_pick of boussole.py lines 450-544:
fetch the PR commits (empty result posts the hardcoded 404 report and
fails); read the target branch head; when absent, read the PR base branch
from the PR status, resolve its head (absence posts a 404 report and
fails), create the target branch there (non-created status posts a 422
report and fails) and start replaying from the base sha; when present,
start replaying from the target head. -/
def Boussole.perform_cherry_pick (env : Env) (cfg : Config)
    (target : String) : List Event × Bool :=
  if (Boussole.get_pr_commits env).isEmpty then
    ([Event.fetchCommits,
      Event.postComment
        (Msg.cherryPickError cfg.prNum target ( "404")
          ( "Could not fetch PR commits"))],
      false)
  else
    match Boussole.get_branch_sha env target with
    | some cur =>
      ([Event.fetchCommits, Event.fetchBranch target] ++
        (Boussole.cherryPickLoop env cfg target
          (Boussole.get_pr_commits env).length (Boussole.get_pr_commits env)
          1 cur).1,
        (Boussole.cherryPickLoop env cfg target
          (Boussole.get_pr_commits env).length (Boussole.get_pr_commits env)
          1 cur).2.1)
    | none =>
      match Boussole.get_branch_sha env env.prBaseRef with
      | none =>
        ([Event.fetchCommits, Event.fetchBranch target, Event.fetchPRStatus,
          Event.fetchBranch env.prBaseRef,
          Event.postComment
            (Msg.cherryPickError cfg.prNum target ( "404")
              ( "Could not find base branch: " ++ env.prBaseRef))],
          false)
      | some bsha =>
        if env.createBranch target bsha then
          ([Event.fetchCommits, Event.fetchBranch target,
            Event.fetchPRStatus, Event.fetchBranch env.prBaseRef,
            Event.createBranchCall target bsha] ++
            (Boussole.cherryPickLoop env cfg target
              (Boussole.get_pr_commits env).length
              (Boussole.get_pr_commits env) 1 bsha).1,
            (Boussole.cherryPickLoop env cfg target
              (Boussole.get_pr_commits env).length
              (Boussole.get_pr_commits env) 1 bsha).2.1)
        else
          ([Event.fetchCommits, Event.fetchBranch target,
            Event.fetchPRStatus, Event.fetchBranch env.prBaseRef,
            Event.createBranchCall target bsha,
            Event.postComment
              (Msg.cherryPickError cfg.prNum target ( "422")
                ( "Could not create branch: " ++ target))],
            false)

/-- Embeds re.match of the anchored case-insensitive cherry-pick command
pattern of boussole.py line 406: the command token, at least one whitespace
character, then the captured branch name read from the original body. -/
def matchCherryPick (body : String) : Option String :=
  if charsBeginWith ( "/cherry-pick").data (body.data.map Char.toLower) then
    match body.data.drop 12 with
    | [] => none
    | ch :: rest =>
      if ch.isWhitespace then
        if ((rest.dropWhile Char.isWhitespace).takeWhile
            (fun c => !c.isWhitespace)).isEmpty then none
        else
          some (String.mk ((rest.dropWhile Char.isWhitespace).takeWhile
            (fun c => !c.isWhitespace)))
      else none
  else none

/-- Embeds the cherry-pick command collection of boussole.py lines 403-408:
the set of requested branches, modelled as a first-seen-order deduplicated
list (the Python set has no specified order). -/
def collectBranches : List Comment → List String → List String
  | [], acc => acc
  | c :: rest, acc =>
    match matchCherryPick c.body with
    | some b =>
      collectBranches rest (if acc.contains b then acc else acc ++ [b])
    | none => collectBranches rest acc

/-- Embeds the cherry-pick dispatch loop of boussole.py lines 411-413: run
the jobs one at a time and return False at the first failing job, without
attempting the remaining branches. -/
def Boussole.runCherryPicks (env : Env) (cfg : Config) :
    List String → List Event × Bool
  | [] => ([], true)
  | b :: rest =>
    if (Boussole.perform_cherry_pick env cfg b).2 then
      ((Boussole.perform_cherry_pick env cfg b).1 ++
        (Boussole.runCherryPicks env cfg rest).1,
        (Boussole.runCherryPicks env cfg rest).2)
    else ((Boussole.perform_cherry_pick env cfg b).1, false)

/-- Embeds PRHandler.merge_pr of boussole.py lines 365-448: gate on the
permission of the invoker (fatal exit 1 when invalid), tally the votes, post the
insufficient-votes message and return False below threshold, otherwise
issue the merge call; a non-200 merge posts the merge-failed message and
returns False; on 200, re-fetch the comments (non-200 exits with code 1),
collect the requested cherry-pick branches, run the jobs until the first
failure (returning False on failure), and only when all jobs succeed post
the merge-success summary and return True. -/
def Boussole.merge_pr (env : Env) (cfg : Config) :
    List Event × Except Nat Bool :=
  if !(Boussole.check_membership env cfg cfg.commentSender).2 then
    ([Event.permissionLookup cfg.commentSender,
      Event.postComment
        (Msg.insufficientPermissions cfg.commentSender
          (Boussole.check_membership env cfg cfg.commentSender).1)],
      Except.error 1)
  else
    match Boussole.fetch_and_validate_lgtm_votes env cfg with
    | (ev2, Except.error n) =>
      (Event.permissionLookup cfg.commentSender :: ev2, Except.error n)
    | (ev2, Except.ok (validVotes, lgtmUsers)) =>
      if cfg.lgtmThreshold ≤ (validVotes : Int) then
        if env.mergeStatus == 200 then
          if env.commentsStatus != 200 then
            (Event.permissionLookup cfg.commentSender :: ev2 ++
              [Event.mergeCall, Event.fetchComments], Except.error 1)
          else
            if (Boussole.runCherryPicks env cfg
                (collectBranches env.comments [])).2 then
              (Event.permissionLookup cfg.commentSender :: ev2 ++
                [Event.mergeCall, Event.fetchComments] ++
                (Boussole.runCherryPicks env cfg
                  (collectBranches env.comments [])).1 ++
                [Event.postComment
                  (Msg.successMerged cfg.mergeMethod cfg.commentSender
                    validVotes cfg.lgtmThreshold lgtmUsers)],
                Except.ok true)
            else
              (Event.permissionLookup cfg.commentSender :: ev2 ++
                [Event.mergeCall, Event.fetchComments] ++
                (Boussole.runCherryPicks env cfg
                  (collectBranches env.comments [])).1,
                Except.ok false)
        else
          (Event.permissionLookup cfg.commentSender :: ev2 ++
            [Event.mergeCall,
             Event.postComment (Msg.mergeFailed cfg.prNum env.mergeStatus)],
            Except.ok false)
      else
        (Event.permissionLookup cfg.commentSender :: ev2 ++
          [Event.postComment
            (Msg.notEnoughLgtm validVotes cfg.lgtmThreshold)],
          Except.ok false)

/-- Embeds PRHandler.check_status of boussole.py lines 236-244: fetch the
PR status (a non-200 status exits with code 1) and compare its state field
with the expected state. -/
def Boussole.check_status (env : Env) (status : String) :
    List Event × Except Nat Bool :=
  ([Event.fetchPRStatus],
    if env.prStatusCode != 200 then Except.error 1
    else Except.ok (env.prState == status))

/-- Embeds the merge-command path of main, boussole.py lines 707-709 and
724-725: the open-state gate exits with code 1 before merge_pr runs, and
the Bool result of merge_pr is discarded. -/
def Boussole.runMergeCommand (env : Env) (cfg : Config) :
    List Event × Except Nat Unit :=
  match Boussole.check_status env ( "open") with
  | (ev, Except.error n) => (ev, Except.error n)
  | (ev, Except.ok b) =>
    if !b then (ev, Except.error 1)
    else
      match Boussole.merge_pr env cfg with
      | (ev2, Except.error n) => (ev ++ ev2, Except.error n)
      | (ev2, Except.ok _) => (ev ++ ev2, Except.ok ())

/-- Embeds PRHandler.check_membership of prow.py lines 251-274: any non-200
status is a logged soft failure (there is no separate 404 arm), an empty
permission field is a logged soft failure, and otherwise validity is
membership of the configured permission set. -/
def Prow.check_membership (env : Env) (cfg : Config) (user : String) :
    Option String × Bool :=
  let resp := env.perm user
  if resp.status != 200 then (none, false)
  else
    match resp.permission with
    | none => (none, false)
    | some p => (some p, cfg.lgtmPermissions.contains p)

/-- Embeds the permission loop of prow.py lines 306-311: look up each
distinct voter in order, record its permission in the breakdown, and count
the valid ones. -/
def Prow.tallyUsers (env : Env) (cfg : Config) :
    List String → (Nat × List (String × Option String)) × List Event
  | [] => ((0, []), [])
  | u :: rest =>
    let pv := Prow.check_membership env cfg u
    let r := Prow.tallyUsers env cfg rest
    (((if pv.2 then r.1.1 + 1 else r.1.1), (u, pv.1) :: r.1.2),
      Event.permissionLookup u :: r.2)

/-- Embeds PRHandler.lgtm of prow.py lines 276-339: fetch the comments (a
non-200 status exits with code 1), scan for votes (a self vote posts the
rejection and exits with code 1), tally permissions; at or above the
threshold post the approval review and return the count; below it, print
the insufficient message, post the breakdown only when send_comment is
true, and exit with code 0. -/
def Prow.lgtm (env : Env) (cfg : Config) (sendComment : Bool) :
    List Event × Except Nat Nat :=
  if env.commentsStatus != 200 then ([Event.fetchComments], Except.error 1)
  else
    match scanVotes cfg env.comments [] with
    | (ev, Except.error n) => (Event.fetchComments :: ev, Except.error n)
    | (ev, Except.ok users) =>
      if cfg.lgtmThreshold ≤ ((Prow.tallyUsers env cfg users).1.1 : Int) then
        (Event.fetchComments :: ev ++ (Prow.tallyUsers env cfg users).2 ++
          [Event.postReview],
          Except.ok (Prow.tallyUsers env cfg users).1.1)
      else
        if sendComment then
          (Event.fetchComments :: ev ++ (Prow.tallyUsers env cfg users).2 ++
            [Event.postComment
              (Msg.lgtmBreakdown (Prow.tallyUsers env cfg users).1.1
                cfg.lgtmThreshold (Prow.tallyUsers env cfg users).1.2)],
            Except.error 0)
        else
          (Event.fetchComments :: ev ++ (Prow.tallyUsers env cfg users).2,
            Except.error 0)

/-- Embeds the comment re-scan of prow.py lines 390-395 building the
success-message user table: matching vote comments whose author differs
from the PR sender are recorded, deduplicated, with no fatal path. -/
def Prow.scanVotesSkipSender (cfg : Config) :
    List Comment → List String → List String
  | [], acc => acc
  | c :: rest, acc =>
    if matchesLgtm c.body && c.author != cfg.prSender then
      Prow.scanVotesSkipSender cfg rest (insertUser acc c.author)
    else
      Prow.scanVotesSkipSender cfg rest acc

/-- Embeds the permission re-lookup of prow.py lines 397-400: fetch each
permission of each recorded voter for the success table, ignoring validity. -/
def Prow.lookupPerms (env : Env) (cfg : Config) :
    List String → List (String × Option String) × List Event
  | [] => ([], [])
  | u :: rest =>
    let pv := Prow.check_membership env cfg u
    let r := Prow.lookupPerms env cfg rest
    ((u, pv.1) :: r.1, Event.permissionLookup u :: r.2)

/-- Embeds PRHandler.merge_pr of prow.py lines 360-435: gate on the
permission of the invoker (fatal exit 1 when invalid), run lgtm with
send_comment False (whose process exits propagate), and with the returned
count at or above the threshold issue the merge call; a 200 merge
re-fetches the comments with no status check, rebuilds the voter table
skipping the sender, posts the success summary and returns True; a non-200
merge posts the merge-failed message and returns False; below the
threshold post the insufficient-votes message and return False. -/
def Prow.merge_pr (env : Env) (cfg : Config) : List Event × Except Nat Bool :=
  if !(Prow.check_membership env cfg cfg.commentSender).2 then
    ([Event.permissionLookup cfg.commentSender,
      Event.postComment
        (Msg.insufficientPermissions cfg.commentSender
          (Prow.check_membership env cfg cfg.commentSender).1)],
      Except.error 1)
  else
    match Prow.lgtm env cfg false with
    | (ev2, Except.error n) =>
      (Event.permissionLookup cfg.commentSender :: ev2, Except.error n)
    | (ev2, Except.ok validVotes) =>
      if cfg.lgtmThreshold ≤ (validVotes : Int) then
        if env.mergeStatus == 200 then
          (Event.permissionLookup cfg.commentSender :: ev2 ++
            [Event.mergeCall, Event.fetchComments] ++
            (Prow.lookupPerms env cfg
              (Prow.scanVotesSkipSender cfg env.comments [])).2 ++
            [Event.postComment
              (Msg.successMerged cfg.mergeMethod cfg.commentSender
                validVotes cfg.lgtmThreshold
                (Prow.lookupPerms env cfg
                  (Prow.scanVotesSkipSender cfg env.comments [])).1)],
            Except.ok true)
        else
          (Event.permissionLookup cfg.commentSender :: ev2 ++
            [Event.mergeCall,
             Event.postComment (Msg.mergeFailed cfg.prNum env.mergeStatus)],
            Except.ok false)
      else
        (Event.permissionLookup cfg.commentSender :: ev2 ++
          [Event.postComment
            (Msg.notEnoughLgtm validVotes cfg.lgtmThreshold)],
          Except.ok false)

/-- The posted reports a cherry-pick job can produce. -/
def Msg.isCherryReport : Msg → Bool
  | Msg.cherryPickError _ _ _ _ => true
  | Msg.cherryPickSuccess _ _ _ _ => true
  | Msg.cherryPickConflict _ _ _ _ _ => true
  | _ => false

/-- The API events a cherry-pick job can perform. -/
def Event.isCherryJobEvent : Event → Bool
  | Event.fetchCommits => true
  | Event.fetchBranch _ => true
  | Event.fetchPRStatus => true
  | Event.createBranchCall _ _ => true
  | Event.replayCall _ _ => true
  | Event.postComment m => m.isCherryReport
  | _ => false

/-- Configuration used by the concrete test scenarios: PR 12 opened by
alice, command invoked by carol, threshold 1, permissions admin and write. -/
def cfgW : Config :=
  { prNum := "12", prSender := "alice", commentSender := "carol",
    lgtmThreshold := 1, lgtmPermissions := [ "admin", "write"],
    mergeMethod := "rebase" }

/-- Baseline test environment: one valid vote by bob, an open PR on base
branch main, one commit, successful replays, successful merge, and no
cherry-pick requests. -/
def baseEnv : Env :=
  { commentsStatus := 200,
    comments := [{ author := "bob", body := "/lgtm" }],
    perm := fun u =>
      if u == "carol" then { status := 200, permission := some ( "admin") }
      else if u == "bob" then
        { status := 200, permission := some ( "write") }
      else { status := 404, permission := none },
    prStatusCode := 200, prState := "open", prBaseRef := "main",
    branchRefStatus := fun _ => 200,
    branchRefSha := fun b => if b == "main" then some ( "mhead") else none,
    createBranch := fun _ _ => true,
    commitsStatus := 200,
    commits := [{ sha := "c1", message := "m1" }],
    replay := fun _ s => { status := 201, sha := "r-" ++ s, text := "" },
    mergeStatus := 200 }

/-- Environment where the PR sender voted on their own PR. -/
def envSelf : Env :=
  { baseEnv with comments := [{ author := "alice", body := "/lgtm" }] }

/-- First test commit. -/
def cm1 : Commit := { sha := "c1", message := "m1" }

/-- Second test commit. -/
def cm2 : Commit := { sha := "c2", message := "m2" }

/-- Third test commit. -/
def cm3 : Commit := { sha := "c3", message := "m3" }

/-- Environment for the conflict scenario: three commits, the target branch
rel exists, replaying c2 conflicts. -/
def envConflict : Env :=
  { baseEnv with
    commits := [cm1, cm2, cm3],
    branchRefSha := fun b =>
      if b == "rel" then some ( "t0")
      else if b == "main" then some ( "mhead") else none,
    replay := fun _ s =>
      if s == "c2" then { status := 409, sha := "", text := "conflict" }
      else { status := 201, sha := "r-" ++ s, text := "" } }

/-- Environment where one cherry-pick branch is requested and the commit
fetch fails, so the job fails after a successful merge. -/
def envCpFail : Env :=
  { baseEnv with
    comments := [{ author := "bob", body := "/lgtm" },
      { author := "dave", body := "/cherry-pick b1" }],
    commitsStatus := 500 }

/-- Environment where two cherry-pick branches are requested and the commit
fetch fails, so every job would fail. -/
def envTwoBranches : Env :=
  { baseEnv with
    comments := [{ author := "bob", body := "/lgtm" },
      { author := "dave", body := "/cherry-pick b1" },
      { author := "erin", body := "/cherry-pick b2" }],
    commitsStatus := 500 }

/-- Environment where the job for branch b1 succeeds and the job for
branch b2 hits a replay conflict. -/
def envB2Conflict : Env :=
  { baseEnv with
    branchRefSha := fun b =>
      if b == "main" then some ( "mhead")
      else if b == "b1" then some ( "t1")
      else if b == "b2" then some ( "t2") else none,
    replay := fun b s =>
      if b == "b2" then { status := 409, sha := "", text := "conflict" }
      else { status := 201, sha := "r-" ++ s, text := "" } }

/-- Environment with no comments at all, hence zero votes. -/
def envNoVotes : Env := { baseEnv with comments := [] }

/-- Environment where the cherry-pick target branch rel already exists. -/
def envRelExists : Env :=
  { baseEnv with
    branchRefSha := fun b =>
      if b == "rel" then some ( "t0")
      else if b == "main" then some ( "mhead") else none }

/-- Environment whose PR is already closed. -/
def envClosed : Env := { baseEnv with prState := "closed" }

/-- Environment whose commit-list fetch fails with a 500. -/
def envCommits500 : Env := { baseEnv with commitsStatus := 500 }

/-- Environment whose PR has an empty commit list. -/
def envCommitsEmpty : Env := { baseEnv with commits := [] }

lemma scanVotes_ok_events (cfg : Config) (cs : List Comment) :
    ∀ (acc us : List String) (ev : List Event),
      scanVotes cfg cs acc = (ev, Except.ok us) → ev = [] := by
  induction cs with
  | nil =>
    intro acc us ev h
    simp only [scanVotes, Prod.mk.injEq] at h
    exact h.1.symm
  | cons c rest ih =>
    intro acc us ev h
    simp only [scanVotes] at h
    split at h
    · split at h
      · simp at h
      · exact ih _ _ _ h
    · exact ih _ _ _ h

lemma scanVotes_events (cfg : Config) (cs : List Comment) :
    ∀ (acc : List String) (e : Event), e ∈ (scanVotes cfg cs acc).1 →
      ∃ u, e = Event.postComment (Msg.selfApproval u) := by
  induction cs with
  | nil =>
    intro acc e h
    simp [scanVotes] at h
  | cons c rest ih =>
    intro acc e h
    simp only [scanVotes] at h
    split at h
    · split at h
      · simp only [List.mem_singleton] at h
        exact ⟨c.author, h⟩
      · exact ih _ _ h
    · exact ih _ _ h

lemma scanVotes_self (cfg : Config) (cs : List Comment) :
    ∀ (acc : List String),
      (∃ c ∈ cs, matchesLgtm c.body = true ∧ c.author = cfg.prSender) →
      scanVotes cfg cs acc =
        ([Event.postComment (Msg.selfApproval cfg.prSender)],
          Except.error 1) := by
  induction cs with
  | nil =>
    intro acc h
    simp at h
  | cons c rest ih =>
    intro acc h
    by_cases hm : matchesLgtm c.body = true
    · by_cases ha : c.author = cfg.prSender
      · simp [scanVotes, hm, ha]
      · have : ∃ x ∈ rest, matchesLgtm x.body = true ∧
            x.author = cfg.prSender := by
          rcases h with ⟨x, hx, hmx, hax⟩
          rcases List.mem_cons.mp hx with hxc | hxr
          · exact absurd (hxc ▸ hax) ha
          · exact ⟨x, hxr, hmx, hax⟩
        simp only [scanVotes, hm, if_true]
        rw [if_neg (by simpa using ha)]
        exact ih _ this
    · have : ∃ x ∈ rest, matchesLgtm x.body = true ∧
          x.author = cfg.prSender := by
        rcases h with ⟨x, hx, hmx, hax⟩
        rcases List.mem_cons.mp hx with hxc | hxr
        · exact absurd (hxc ▸ hmx) hm
        · exact ⟨x, hxr, hmx, hax⟩
      simp only [scanVotes]
      rw [if_neg hm]
      exact ih _ this

lemma scanVotes_append_ok (cfg : Config) (cs : List Comment) :
    ∀ (ds : List Comment) (acc us : List String),
      scanVotes cfg cs acc = ([], Except.ok us) →
      scanVotes cfg (cs ++ ds) acc = scanVotes cfg ds us := by
  induction cs with
  | nil =>
    intro ds acc us h
    simp only [scanVotes, Prod.mk.injEq, Except.ok.injEq, true_and] at h
    simp [h]
  | cons c rest ih =>
    intro ds acc us h
    simp only [scanVotes] at h
    simp only [List.cons_append, scanVotes]
    split at h
    · split at h
      · simp at h
      · rename_i hm ha
        rw [if_pos hm, if_neg ha]
        exact ih _ _ _ h
    · rename_i hm
      rw [if_neg hm]
      exact ih _ _ _ h

lemma insertUser_nodup (us : List String) (u : String) (h : us.Nodup) :
    (insertUser us u).Nodup := by
  unfold insertUser
  split
  · exact h
  · rename_i hc
    simp only [List.contains, List.elem_eq_mem, decide_eq_true_eq] at hc
    simpa [List.nodup_append, hc] using h

lemma scanVotes_nodup (cfg : Config) (cs : List Comment) :
    ∀ (acc us : List String) (ev : List Event), acc.Nodup →
      scanVotes cfg cs acc = (ev, Except.ok us) → us.Nodup := by
  induction cs with
  | nil =>
    intro acc us ev hacc h
    simp only [scanVotes, Prod.mk.injEq, Except.ok.injEq] at h
    exact h.2 ▸ hacc
  | cons c rest ih =>
    intro acc us ev hacc h
    simp only [scanVotes] at h
    split at h
    · split at h
      · simp at h
      · exact ih _ _ _ (insertUser_nodup _ _ hacc) h
    · exact ih _ _ _ hacc h

lemma Boussole.tallyUsers_le (env : Env) (cfg : Config) (us : List String) :
    (Boussole.tallyUsers env cfg us).1.1 ≤ us.length := by
  induction us with
  | nil => simp [Boussole.tallyUsers]
  | cons u rest ih =>
    simp only [Boussole.tallyUsers, List.length_cons]
    split <;> omega

lemma Prow.tallyVotesCount_le (env : Env) (cfg : Config) (us : List String) :
    (Prow.tallyUsers env cfg us).1.1 ≤ us.length := by
  induction us with
  | nil => simp [Prow.tallyUsers]
  | cons u rest ih =>
    simp only [Prow.tallyUsers, List.length_cons]
    split <;> omega

lemma Boussole.tallyUsers_events (env : Env) (cfg : Config)
    (us : List String) :
    ∀ e ∈ (Boussole.tallyUsers env cfg us).2,
      ∃ u, e = Event.permissionLookup u := by
  induction us with
  | nil => simp [Boussole.tallyUsers]
  | cons u rest ih =>
    intro e he
    simp only [Boussole.tallyUsers, List.mem_cons] at he
    rcases he with he | he
    · exact ⟨u, he⟩
    · exact ih e he

lemma Prow.tallyVotes_events (env : Env) (cfg : Config) (us : List String) :
    ∀ e ∈ (Prow.tallyUsers env cfg us).2,
      ∃ u, e = Event.permissionLookup u := by
  induction us with
  | nil => simp [Prow.tallyUsers]
  | cons u rest ih =>
    intro e he
    simp only [Prow.tallyUsers, List.mem_cons] at he
    rcases he with he | he
    · exact ⟨u, he⟩
    · exact ih e he

lemma Prow.lookupPerms_events (env : Env) (cfg : Config) (us : List String) :
    ∀ e ∈ (Prow.lookupPerms env cfg us).2,
      ∃ u, e = Event.permissionLookup u := by
  induction us with
  | nil => simp [Prow.lookupPerms]
  | cons u rest ih =>
    intro e he
    simp only [Prow.lookupPerms, List.mem_cons] at he
    rcases he with he | he
    · exact ⟨u, he⟩
    · exact ih e he

lemma Boussole.fetch_events (env : Env) (cfg : Config) :
    ∀ e ∈ (Boussole.fetch_and_validate_lgtm_votes env cfg).1,
      e = Event.fetchComments ∨
      (∃ u, e = Event.postComment (Msg.selfApproval u)) ∨
      (∃ u, e = Event.permissionLookup u) := by
  intro e he
  unfold Boussole.fetch_and_validate_lgtm_votes at he
  split at he
  · simp only [List.mem_singleton] at he
    exact Or.inl he
  · split at he
    · rename_i ev n heq
      simp only [List.mem_cons] at he
      rcases he with he | he
      · exact Or.inl he
      · have : e ∈ (scanVotes cfg env.comments []).1 := by rw [heq]; exact he
        exact Or.inr (Or.inl (scanVotes_events cfg env.comments [] e this))
    · rename_i ev users heq
      rcases List.mem_cons.mp he with he2 | he2
      · exact Or.inl he2
      · rcases List.mem_append.mp he2 with he3 | he3
        · have : e ∈ (scanVotes cfg env.comments []).1 := by
            rw [heq]; exact he3
          exact Or.inr (Or.inl (scanVotes_events cfg env.comments [] e this))
        · exact Or.inr
            (Or.inr (Boussole.tallyUsers_events env cfg users e he3))

lemma Boussole.cherryPickLoop_events (env : Env) (cfg : Config)
    (target : String) (total : Nat) (cs : List Commit) :
    ∀ (i : Nat) (cur : String) (e : Event),
      e ∈ (Boussole.cherryPickLoop env cfg target total cs i cur).1 →
      (∃ b s, e = Event.replayCall b s) ∨
      (∃ m, Msg.isCherryReport m = true ∧ e = Event.postComment m) := by
  induction cs with
  | nil =>
    intro i cur e he
    simp only [Boussole.cherryPickLoop, List.mem_singleton] at he
    refine Or.inr ⟨_, ?_, he⟩
    rfl
  | cons c rest ih =>
    intro i cur e he
    simp only [Boussole.cherryPickLoop] at he
    split at he
    · simp only [List.mem_cons, List.mem_singleton] at he
      rcases he with he | he | he
      · exact Or.inl ⟨_, _, he⟩
      · refine Or.inr ⟨_, ?_, he⟩
        rfl
      · simp at he
    · split at he
      · simp only [List.mem_cons, List.mem_singleton] at he
        rcases he with he | he | he
        · exact Or.inl ⟨_, _, he⟩
        · refine Or.inr ⟨_, ?_, he⟩
          rfl
        · simp at he
      · simp only [List.mem_cons] at he
        rcases he with he | he
        · exact Or.inl ⟨_, _, he⟩
        · exact ih _ _ e he

lemma Boussole.perform_events (env : Env) (cfg : Config) (target : String) :
    ∀ e ∈ (Boussole.perform_cherry_pick env cfg target).1,
      e.isCherryJobEvent = true := by
  intro e he
  have hloop : ∀ (total : Nat) (cs : List Commit) (i : Nat) (cur : String),
      e ∈ (Boussole.cherryPickLoop env cfg target total cs i cur).1 →
      e.isCherryJobEvent = true := by
    intro total cs i cur hm
    rcases Boussole.cherryPickLoop_events env cfg target total cs i cur e hm
      with ⟨b, s, rfl⟩ | ⟨m, hr, rfl⟩
    · rfl
    · simpa [Event.isCherryJobEvent] using hr
  unfold Boussole.perform_cherry_pick at he
  split at he
  · simp only [List.mem_cons, List.mem_singleton] at he
    rcases he with rfl | rfl | h
    · rfl
    · rfl
    · simp at h
  · split at he
    · simp only [List.cons_append, List.nil_append, List.mem_cons] at he
      rcases he with rfl | rfl | h
      · rfl
      · rfl
      · exact hloop _ _ _ _ h
    · split at he
      · simp only [List.mem_cons, List.mem_singleton] at he
        rcases he with rfl | rfl | rfl | rfl | rfl | h
        · rfl
        · rfl
        · rfl
        · rfl
        · rfl
        · simp at h
      · split at he
        · simp only [List.cons_append, List.nil_append, List.mem_cons] at he
          rcases he with rfl | rfl | rfl | rfl | rfl | h
          · rfl
          · rfl
          · rfl
          · rfl
          · rfl
          · exact hloop _ _ _ _ h
        · simp only [List.mem_cons, List.mem_singleton] at he
          rcases he with rfl | rfl | rfl | rfl | rfl | rfl | h
          · rfl
          · rfl
          · rfl
          · rfl
          · rfl
          · rfl
          · simp at h

lemma Boussole.runCherryPicks_events (env : Env) (cfg : Config)
    (bs : List String) :
    ∀ e ∈ (Boussole.runCherryPicks env cfg bs).1,
      e.isCherryJobEvent = true := by
  induction bs with
  | nil => simp [Boussole.runCherryPicks]
  | cons b rest ih =>
    intro e he
    simp only [Boussole.runCherryPicks] at he
    split at he
    · simp only [List.mem_append] at he
      rcases he with he | he
      · exact Boussole.perform_events env cfg b e he
      · exact ih e he
    · exact Boussole.perform_events env cfg b e he

lemma Boussole.cherryPickLoop_conflict (env : Env) (cfg : Config)
    (target : String) (total : Nat) (c : Commit) (post : List Commit)
    (hc : (env.replay target c.sha).status = 409) :
    ∀ (pre : List Commit) (i : Nat) (init : String),
      (∀ x ∈ pre, (env.replay target x.sha).status = 201) →
      Boussole.cherryPickLoop env cfg target total (pre ++ c :: post) i
          init =
        (pre.map (fun x => Event.replayCall target x.sha) ++
          [Event.replayCall target c.sha,
           Event.postComment
             (Msg.cherryPickConflict cfg.prNum target (i + pre.length)
               total c.sha)],
          false,
          lastD init (pre.map (fun x => (env.replay target x.sha).sha))) := by
  intro pre
  induction pre with
  | nil =>
    intro i init _
    simp only [List.nil_append, Boussole.cherryPickLoop, List.map_nil,
      lastD, List.length_nil, Nat.add_zero, List.nil_append]
    rw [if_pos (by simp [hc])]
  | cons x rest ih =>
    intro i init hpre
    have hx : (env.replay target x.sha).status = 201 := hpre x (by simp)
    simp only [List.cons_append, Boussole.cherryPickLoop, List.append_eq]
    rw [if_neg (by simp [hx]), if_neg (by simp [hx])]
    rw [ih (i + 1) (env.replay target x.sha).sha
      (fun y hy => hpre y (List.mem_cons_of_mem x hy))]
    have hidx : i + (rest.length + 1) = i + 1 + rest.length := by omega
    simp only [List.map_cons, List.cons_append, lastD, List.length_cons,
      hidx]

lemma Boussole.runCherryPicks_failStop (env : Env) (cfg : Config)
    (b : String) (post : List String)
    (hb : (Boussole.perform_cherry_pick env cfg b).2 = false) :
    ∀ (pre : List String),
      (∀ x ∈ pre, (Boussole.perform_cherry_pick env cfg x).2 = true) →
      Boussole.runCherryPicks env cfg (pre ++ b :: post) =
        ((pre.map
            (fun x => (Boussole.perform_cherry_pick env cfg x).1)).flatten ++
          (Boussole.perform_cherry_pick env cfg b).1, false) := by
  intro pre
  induction pre with
  | nil =>
    intro _
    simp only [List.nil_append, Boussole.runCherryPicks, hb,
      Bool.false_eq_true, if_false, List.map_nil, List.flatten_nil,
      List.nil_append]
  | cons x rest ih =>
    intro hpre
    have hx : (Boussole.perform_cherry_pick env cfg x).2 = true :=
      hpre x (by simp)
    simp only [List.cons_append, Boussole.runCherryPicks, hx, if_true,
      List.append_eq]
    rw [ih (fun y hy => hpre y (List.mem_cons_of_mem x hy))]
    simp [List.append_assoc]

lemma Prow.lgtm_ok_ge (env : Env) (cfg : Config) (sc : Bool)
    (ev : List Event) (v : Nat)
    (h : Prow.lgtm env cfg sc = (ev, Except.ok v)) :
    cfg.lgtmThreshold ≤ (v : Int) := by
  unfold Prow.lgtm at h
  split at h
  · simp at h
  · split at h
    · simp at h
    · split at h
      · rename_i hge
        simp only [Prod.mk.injEq, Except.ok.injEq] at h
        rw [← h.2]
        exact hge
      · split at h <;> simp at h

lemma scanVotes_error_one (cfg : Config) (cs : List Comment) :
    ∀ (acc : List String) (ev : List Event) (n : Nat),
      scanVotes cfg cs acc = (ev, Except.error n) → n = 1 := by
  induction cs with
  | nil =>
    intro acc ev n h
    simp [scanVotes] at h
  | cons c rest ih =>
    intro acc ev n h
    simp only [scanVotes] at h
    split at h
    · split at h
      · simp only [Prod.mk.injEq, Except.error.injEq] at h
        exact h.2.symm
      · exact ih _ _ _ h
    · exact ih _ _ _ h

lemma Prow.lgtm_exit0 (env : Env) (cfg : Config) (ev : List Event)
    (h : Prow.lgtm env cfg false = (ev, Except.error 0)) :
    ∀ m, Event.postComment m ∉ ev := by
  intro m hm
  unfold Prow.lgtm at h
  split at h
  · simp only [Prod.mk.injEq, Except.error.injEq] at h
    omega
  · split at h
    · rename_i ev0 n heq
      have h1 : n = 1 := scanVotes_error_one cfg env.comments [] ev0 n heq
      simp only [Prod.mk.injEq, Except.error.injEq] at h
      omega
    · rename_i ev0 users heq
      split at h
      · simp at h
      · split at h
        · simp_all
        · simp only [Prod.mk.injEq] at h
          have hev : ev = Event.fetchComments :: ev0 ++
              (Prow.tallyUsers env cfg users).2 := h.1.symm
          rw [hev] at hm
          rcases List.mem_cons.mp hm with hm2 | hm2
          · simp at hm2
          · rcases List.mem_append.mp hm2 with hm3 | hm3
            · have : ev0 = [] :=
                scanVotes_ok_events cfg env.comments [] users ev0 heq
              rw [this] at hm3
              simp at hm3
            · rcases Prow.tallyVotes_events env cfg users _ hm3 with ⟨u, hu⟩
              simp at hu

lemma Prow.lgtm_events (env : Env) (cfg : Config) (sc : Bool) :
    ∀ e ∈ (Prow.lgtm env cfg sc).1,
      e = Event.fetchComments ∨
      (∃ u, e = Event.postComment (Msg.selfApproval u)) ∨
      (∃ u, e = Event.permissionLookup u) ∨
      e = Event.postReview ∨
      (∃ a b l, e = Event.postComment (Msg.lgtmBreakdown a b l)) := by
  intro e he
  unfold Prow.lgtm at he
  split at he
  · simp only [List.mem_singleton] at he
    exact Or.inl he
  · split at he
    · rename_i ev0 n heq
      rcases List.mem_cons.mp he with he2 | he2
      · exact Or.inl he2
      · have : e ∈ (scanVotes cfg env.comments []).1 := by
          rw [heq]; exact he2
        exact Or.inr (Or.inl (scanVotes_events cfg env.comments [] e this))
    · rename_i ev0 users heq
      have hscan : ∀ x ∈ ev0,
          ∃ u, x = Event.postComment (Msg.selfApproval u) := by
        intro x hx
        have : x ∈ (scanVotes cfg env.comments []).1 := by
          rw [heq]; exact hx
        exact scanVotes_events cfg env.comments [] x this
      split at he
      · rcases List.mem_cons.mp he with he2 | he2
        · exact Or.inl he2
        · rcases List.mem_append.mp he2 with he3 | he3
          · rcases List.mem_append.mp he3 with he4 | he4
            · exact Or.inr (Or.inl (hscan e he4))
            · exact Or.inr (Or.inr (Or.inl
                (Prow.tallyVotes_events env cfg users e he4)))
          · simp only [List.mem_singleton] at he3
            exact Or.inr (Or.inr (Or.inr (Or.inl he3)))
      · split at he
        · rcases List.mem_cons.mp he with he2 | he2
          · exact Or.inl he2
          · rcases List.mem_append.mp he2 with he3 | he3
            · rcases List.mem_append.mp he3 with he4 | he4
              · exact Or.inr (Or.inl (hscan e he4))
              · exact Or.inr (Or.inr (Or.inl
                  (Prow.tallyVotes_events env cfg users e he4)))
            · simp only [List.mem_singleton] at he3
              exact Or.inr (Or.inr (Or.inr (Or.inr ⟨_, _, _, he3⟩)))
        · rcases List.mem_cons.mp he with he2 | he2
          · exact Or.inl he2
          · rcases List.mem_append.mp he2 with he3 | he3
            · exact Or.inr (Or.inl (hscan e he3))
            · exact Or.inr (Or.inr (Or.inl
                (Prow.tallyVotes_events env cfg users e he3)))

/-- C1: whenever some comment matching the /lgtm vote pattern is authored
by the PR sender, the boussole merge command (with a permitted invoker and
a successful comment fetch) exits with code 1 immediately after posting the
self-approval rejection: the whole trace is the invoker permission lookup,
the comment fetch, and the rejection post, so no merge call is ever issued
and no permission lookup for any voter happens, hence the PR sender is
never counted as a valid voter. -/
theorem c1_self_vote_fatal (env : Env) (cfg : Config)
    (hv : (Boussole.check_membership env cfg cfg.commentSender).2 = true)
    (hc : env.commentsStatus = 200)
    (hs : ∃ c ∈ env.comments, matchesLgtm c.body = true ∧
      c.author = cfg.prSender) :
    Boussole.merge_pr env cfg =
      ([Event.permissionLookup cfg.commentSender, Event.fetchComments,
        Event.postComment (Msg.selfApproval cfg.prSender)],
        Except.error 1) ∧
    Event.mergeCall ∉ (Boussole.merge_pr env cfg).1 ∧
    (∀ u, Event.permissionLookup u ∈ (Boussole.merge_pr env cfg).1 →
      u = cfg.commentSender) := by
  have hscan := scanVotes_self cfg env.comments [] hs
  have hfetch : Boussole.fetch_and_validate_lgtm_votes env cfg =
      ([Event.fetchComments,
        Event.postComment (Msg.selfApproval cfg.prSender)],
        Except.error 1) := by
    unfold Boussole.fetch_and_validate_lgtm_votes
    rw [if_neg (by simp [hc])]
    rw [hscan]
  have hmp : Boussole.merge_pr env cfg =
      ([Event.permissionLookup cfg.commentSender, Event.fetchComments,
        Event.postComment (Msg.selfApproval cfg.prSender)],
        Except.error 1) := by
    unfold Boussole.merge_pr
    rw [hv, hfetch]
    rfl
  refine ⟨hmp, ?_, ?_⟩
  · rw [hmp]
    simp
  · intro u hu
    rw [hmp] at hu
    simp only [List.mem_cons, List.mem_singleton] at hu
    rcases hu with hu | hu | hu
    · exact (Event.permissionLookup.injEq u cfg.commentSender ▸ hu :)
    · simp at hu
    · simp at hu

/-- C1 witness: in the environment where alice voted on her own PR, with
carol as a permitted invoker, the merge command exits 1 right after the
rejection post. -/
theorem c1_self_vote_fatal_witness :
    Boussole.merge_pr envSelf cfgW =
      ([Event.permissionLookup cfgW.commentSender, Event.fetchComments,
        Event.postComment (Msg.selfApproval cfgW.prSender)],
        Except.error 1) ∧
    Event.mergeCall ∉ (Boussole.merge_pr envSelf cfgW).1 ∧
    (∀ u, Event.permissionLookup u ∈ (Boussole.merge_pr envSelf cfgW).1 →
      u = cfgW.commentSender) :=
  c1_self_vote_fatal envSelf cfgW (by decide) (by decide)
    ⟨{ author := "alice", body := "/lgtm" }, by decide, by decide, by decide⟩

/-- C2: when the target branch resolves to an initial sha and the commit
list is pre followed by c and post, with every replay of pre succeeding
(201) and the replay of c conflicting (409), the job issues the replay
calls for pre in list order, then the one for c, posts the structured
conflict report carrying the one-based index of c over the total commit
count and the sha of c, and returns false with no further replay call (the
trace equation lists every event the job performs); the currentSha of the loop
at that point is the sha produced by the last successful replay, or the
initial sha when c was first, so commits already applied are never rolled
back. -/
theorem c2_conflict_halts (env : Env) (cfg : Config) (target init : String)
    (pre : List Commit) (c : Commit) (post : List Commit)
    (hcs : env.commitsStatus = 200)
    (hcommits : env.commits = pre ++ c :: post)
    (hbr : Boussole.get_branch_sha env target = some init)
    (hpre : ∀ x ∈ pre, (env.replay target x.sha).status = 201)
    (hc : (env.replay target c.sha).status = 409) :
    Boussole.perform_cherry_pick env cfg target =
      ([Event.fetchCommits, Event.fetchBranch target] ++
        (pre.map (fun x => Event.replayCall target x.sha) ++
          [Event.replayCall target c.sha,
           Event.postComment (Msg.cherryPickConflict cfg.prNum target
             (1 + pre.length) (pre ++ c :: post).length c.sha)]),
        false) ∧
    (Boussole.cherryPickLoop env cfg target (pre ++ c :: post).length
        (pre ++ c :: post) 1 init).2.2 =
      lastD init (pre.map (fun x => (env.replay target x.sha).sha)) := by
  have hg : Boussole.get_pr_commits env = pre ++ c :: post := by
    unfold Boussole.get_pr_commits
    rw [if_neg (by simp [hcs]), hcommits]
  have hloop := Boussole.cherryPickLoop_conflict env cfg target
    (pre ++ c :: post).length c post hc pre 1 init hpre
  constructor
  · unfold Boussole.perform_cherry_pick
    rw [hg]
    rw [if_neg (by simp [List.isEmpty_iff])]
    rw [hbr]
    simp only [hloop]
  · rw [hloop]

/-- C2 witness: in the conflict environment, replaying onto rel stops at
commit c2 of 3, posts the 2 of 3 conflict report, and freezes the current
sha at the sha produced by replaying c1. -/
theorem c2_conflict_halts_witness :
    Boussole.perform_cherry_pick envConflict cfgW ( "rel") =
      ([Event.fetchCommits, Event.fetchBranch ( "rel")] ++
        ([cm1].map (fun x => Event.replayCall ( "rel") x.sha) ++
          [Event.replayCall ( "rel") cm2.sha,
           Event.postComment (Msg.cherryPickConflict cfgW.prNum ( "rel")
             (1 + [cm1].length) ([cm1] ++ cm2 :: [cm3]).length cm2.sha)]),
        false) ∧
    (Boussole.cherryPickLoop envConflict cfgW ( "rel")
        ([cm1] ++ cm2 :: [cm3]).length ([cm1] ++ cm2 :: [cm3]) 1
        ( "t0")).2.2 =
      lastD ( "t0")
        ([cm1].map (fun x => (envConflict.replay ( "rel") x.sha).sha)) :=
  c2_conflict_halts envConflict cfgW ( "rel") ( "t0") [cm1] cm2 [cm3]
    (by decide) (by decide) (by decide) (by decide) (by decide)

/-- C3 counterexample: with one requested cherry-pick branch whose job
fails (commit fetch fails), the merge call succeeds, the overall result is
false, and the trace contains no merge-success summary at all, refuting
the claim that the summary is posted regardless of cherry-pick outcomes. -/
theorem c3_counterexample :
    Boussole.merge_pr envCpFail cfgW =
      ([Event.permissionLookup ( "carol"), Event.fetchComments,
        Event.permissionLookup ( "bob"), Event.mergeCall,
        Event.fetchComments, Event.fetchCommits,
        Event.postComment (Msg.cherryPickError ( "12") ( "b1") ( "404")
          ( "Could not fetch PR commits"))],
        Except.ok false) ∧
    (∀ a b v t lu, Event.postComment (Msg.successMerged a b v t lu) ∉
      (Boussole.merge_pr envCpFail cfgW).1) := by
  have h : Boussole.merge_pr envCpFail cfgW =
      ([Event.permissionLookup ( "carol"), Event.fetchComments,
        Event.permissionLookup ( "bob"), Event.mergeCall,
        Event.fetchComments, Event.fetchCommits,
        Event.postComment (Msg.cherryPickError ( "12") ( "b1") ( "404")
          ( "Could not fetch PR commits"))],
        Except.ok false) := by rfl
  refine ⟨h, ?_⟩
  intro a b v t lu hm
  rw [h] at hm
  simp at hm

/-- C3 amended: after a successful merge call the orchestrator posts the
merge-success summary only when every cherry-pick job succeeded; whenever
the cherry-pick run fails, it returns false with no summary posted. The
trace equation makes both cases explicit. -/
theorem c3_amended (env : Env) (cfg : Config) (ev2 : List Event) (n : Nat)
    (brk : List (String × Option String)) (evJ : List Event) (allOk : Bool)
    (hv : (Boussole.check_membership env cfg cfg.commentSender).2 = true)
    (hf : Boussole.fetch_and_validate_lgtm_votes env cfg =
      (ev2, Except.ok (n, brk)))
    (hge : cfg.lgtmThreshold ≤ (n : Int))
    (hm : env.mergeStatus = 200)
    (hcm : env.commentsStatus = 200)
    (hr : Boussole.runCherryPicks env cfg
      (collectBranches env.comments []) = (evJ, allOk)) :
    Boussole.merge_pr env cfg =
      (Event.permissionLookup cfg.commentSender :: ev2 ++
        [Event.mergeCall, Event.fetchComments] ++ evJ ++
        (if allOk then
          [Event.postComment (Msg.successMerged cfg.mergeMethod
            cfg.commentSender n cfg.lgtmThreshold brk)]
        else []),
        Except.ok allOk) ∧
    (allOk = false →
      ∀ a b v t lu, Event.postComment (Msg.successMerged a b v t lu) ∉
        (Boussole.merge_pr env cfg).1) := by
  have hev2 : ∀ e ∈ ev2,
      e = Event.fetchComments ∨
      (∃ u, e = Event.postComment (Msg.selfApproval u)) ∨
      (∃ u, e = Event.permissionLookup u) := by
    intro e he
    apply Boussole.fetch_events
    rw [hf]
    exact he
  have hevJ : ∀ e ∈ evJ, e.isCherryJobEvent = true := by
    intro e he
    have := Boussole.runCherryPicks_events env cfg
      (collectBranches env.comments []) e
    rw [hr] at this
    exact this he
  have hEq : Boussole.merge_pr env cfg =
      (Event.permissionLookup cfg.commentSender :: ev2 ++
        [Event.mergeCall, Event.fetchComments] ++ evJ ++
        (if allOk then
          [Event.postComment (Msg.successMerged cfg.mergeMethod
            cfg.commentSender n cfg.lgtmThreshold brk)]
        else []),
        Except.ok allOk) := by
    cases allOk with
    | true =>
      simp only [Boussole.merge_pr, hv, hf, hr, hm, hcm, if_pos hge]
      simp [List.append_assoc]
    | false =>
      simp only [Boussole.merge_pr, hv, hf, hr, hm, hcm, if_pos hge]
      simp [List.append_assoc]
  refine ⟨hEq, ?_⟩
  rintro rfl a b v t lu hmem
  rw [hEq] at hmem
  simp only [Bool.false_eq_true, if_false, List.append_nil] at hmem
  simp only [List.mem_append, List.mem_cons, List.mem_singleton] at hmem
  rcases hmem with ((hm1 | hm1) | hm1) | hm1
  · simp at hm1
  · rcases hev2 _ hm1 with h1 | ⟨u, h1⟩ | ⟨u, h1⟩ <;> simp at h1
  · rcases hm1 with hm1 | hm1 <;> simp at hm1
  · have := hevJ _ hm1
    simp [Event.isCherryJobEvent, Msg.isCherryReport] at this

/-- C3 amended witness: in the failing cherry-pick environment, the merge
command returns false and posts no summary. -/
theorem c3_amended_witness :
    Boussole.merge_pr envCpFail cfgW =
      (Event.permissionLookup cfgW.commentSender ::
        [Event.fetchComments, Event.permissionLookup ( "bob")] ++
        [Event.mergeCall, Event.fetchComments] ++
        [Event.fetchCommits,
         Event.postComment (Msg.cherryPickError ( "12") ( "b1") ( "404")
           ( "Could not fetch PR commits"))] ++
        (if false then
          [Event.postComment (Msg.successMerged cfgW.mergeMethod
            cfgW.commentSender 1 cfgW.lgtmThreshold
            [(( "bob"), some ( "write"))])]
        else []),
        Except.ok false) ∧
    (false = false →
      ∀ a b v t lu, Event.postComment (Msg.successMerged a b v t lu) ∉
        (Boussole.merge_pr envCpFail cfgW).1) :=
  c3_amended envCpFail cfgW
    [Event.fetchComments, Event.permissionLookup ( "bob")] 1
    [(( "bob"), some ( "write"))]
    [Event.fetchCommits,
     Event.postComment (Msg.cherryPickError ( "12") ( "b1") ( "404")
       ( "Could not fetch PR commits"))] false
    (by decide) (by rfl) (by decide) (by rfl) (by rfl) (by rfl)

/-- C4 counterexample: two distinct branches b1 and b2 are requested, every
job fails because the commit fetch fails, and the orchestrator performs
exactly one commit fetch (the first job) before returning false: the job
for the other branch is never attempted, refuting the claim that one
failure of one branch does not prevent attempting the others. -/
theorem c4_counterexample :
    collectBranches envTwoBranches.comments [] = [( "b1"), ( "b2")] ∧
    Boussole.merge_pr envTwoBranches cfgW =
      ([Event.permissionLookup ( "carol"), Event.fetchComments,
        Event.permissionLookup ( "bob"), Event.mergeCall,
        Event.fetchComments, Event.fetchCommits,
        Event.postComment (Msg.cherryPickError ( "12") ( "b1") ( "404")
          ( "Could not fetch PR commits"))],
        Except.ok false) ∧
    (Boussole.merge_pr envTwoBranches cfgW).1.count Event.fetchCommits =
      1 := by
  refine ⟨rfl, rfl, ?_⟩
  rfl

/-- C4 amended: branches are attempted sequentially in discovery order;
every branch before the first failing job is attempted, and the first
failure makes the run return false immediately, so no job is attempted for
any branch after it. -/
theorem c4_amended (env : Env) (cfg : Config) (b : String)
    (pre post : List String)
    (hpre : ∀ x ∈ pre, (Boussole.perform_cherry_pick env cfg x).2 = true)
    (hb : (Boussole.perform_cherry_pick env cfg b).2 = false) :
    Boussole.runCherryPicks env cfg (pre ++ b :: post) =
      ((pre.map
          (fun x => (Boussole.perform_cherry_pick env cfg x).1)).flatten ++
        (Boussole.perform_cherry_pick env cfg b).1, false) :=
  Boussole.runCherryPicks_failStop env cfg b post hb pre hpre

/-- C4 amended witness: branch b1 succeeds, branch b2 conflicts, and the
run over b1 then b2 stops at b2 with false. -/
theorem c4_amended_witness :
    Boussole.runCherryPicks envB2Conflict cfgW ([( "b1")] ++ ( "b2") :: []) =
      (([( "b1")].map
          (fun x => (Boussole.perform_cherry_pick envB2Conflict cfgW
            x).1)).flatten ++
        (Boussole.perform_cherry_pick envB2Conflict cfgW ( "b2")).1,
        false) :=
  c4_amended envB2Conflict cfgW ( "b2") [( "b1")] [] (by decide) (by decide)

/-- C5 counterexample: in the prow merge command with zero valid votes and
threshold 1, the process terminates with exit code 0 from inside the vote
tally and no comment of any kind is posted, refuting the claim that the
merge command posts the insufficient-votes message as a PR comment and
returns a failure value without terminating the process. -/
theorem c5_counterexample :
    Prow.merge_pr envNoVotes cfgW =
      ([Event.permissionLookup ( "carol"), Event.fetchComments],
        Except.error 0) ∧
    (∀ m, Event.postComment m ∉ (Prow.merge_pr envNoVotes cfgW).1) := by
  have h : Prow.merge_pr envNoVotes cfgW =
      ([Event.permissionLookup ( "carol"), Event.fetchComments],
        Except.error 0) := by rfl
  refine ⟨h, ?_⟩
  intro m hm
  rw [h] at hm
  simp at hm

/-- C5 amended: below the threshold, the boussole merge command posts the
insufficient-votes message and returns False with no merge call, while
the prow merge command instead propagates the process exit produced inside
lgtm (code 0 when the tally ran to completion), issuing no merge call and,
on the exit-0 path, posting no comment. -/
theorem c5_amended (env : Env) (cfg : Config) (ev2 : List Event) (n : Nat)
    (brk : List (String × Option String)) (evP : List Event) (nP : Nat)
    (hv : (Boussole.check_membership env cfg cfg.commentSender).2 = true)
    (hf : Boussole.fetch_and_validate_lgtm_votes env cfg =
      (ev2, Except.ok (n, brk)))
    (hlt : (n : Int) < cfg.lgtmThreshold)
    (hvP : (Prow.check_membership env cfg cfg.commentSender).2 = true)
    (hP : Prow.lgtm env cfg false = (evP, Except.error nP)) :
    Boussole.merge_pr env cfg =
      (Event.permissionLookup cfg.commentSender :: ev2 ++
        [Event.postComment (Msg.notEnoughLgtm n cfg.lgtmThreshold)],
        Except.ok false) ∧
    Event.mergeCall ∉ (Boussole.merge_pr env cfg).1 ∧
    Prow.merge_pr env cfg =
      (Event.permissionLookup cfg.commentSender :: evP, Except.error nP) ∧
    Event.mergeCall ∉ (Prow.merge_pr env cfg).1 ∧
    (nP = 0 → ∀ m, Event.postComment m ∉ evP) := by
  have hev2 : ∀ e ∈ ev2,
      e = Event.fetchComments ∨
      (∃ u, e = Event.postComment (Msg.selfApproval u)) ∨
      (∃ u, e = Event.permissionLookup u) := by
    intro e he
    apply Boussole.fetch_events
    rw [hf]
    exact he
  have hEqB : Boussole.merge_pr env cfg =
      (Event.permissionLookup cfg.commentSender :: ev2 ++
        [Event.postComment (Msg.notEnoughLgtm n cfg.lgtmThreshold)],
        Except.ok false) := by
    simp only [Boussole.merge_pr, hv, hf, if_neg (not_le.mpr hlt)]
    simp
  have hEqP : Prow.merge_pr env cfg =
      (Event.permissionLookup cfg.commentSender :: evP,
        Except.error nP) := by
    simp only [Prow.merge_pr, hvP, hP]
    simp
  refine ⟨hEqB, ?_, hEqP, ?_, ?_⟩
  · rw [hEqB]
    intro hmem
    rcases List.mem_append.mp hmem with h1 | h1
    · rcases List.mem_cons.mp h1 with h2 | h2
      · simp at h2
      · rcases hev2 _ h2 with h3 | ⟨u, h3⟩ | ⟨u, h3⟩ <;> simp at h3
    · simp at h1
  · rw [hEqP]
    intro hmem
    rcases List.mem_cons.mp hmem with h1 | h1
    · simp at h1
    · have h2 := Prow.lgtm_events env cfg false Event.mergeCall
      rw [hP] at h2
      rcases h2 h1 with h3 | ⟨u, h3⟩ | ⟨u, h3⟩ | h3 | ⟨a, b, l, h3⟩ <;>
        simp at h3
  · rintro rfl
    exact Prow.lgtm_exit0 env cfg evP hP

/-- C5 amended witness: with no votes at all, boussole posts the
insufficient-votes comment and returns False; prow exits with code 0 after
only the permission lookup and the comment fetch. -/
theorem c5_amended_witness :
    Boussole.merge_pr envNoVotes cfgW =
      (Event.permissionLookup cfgW.commentSender :: [Event.fetchComments] ++
        [Event.postComment (Msg.notEnoughLgtm 0 cfgW.lgtmThreshold)],
        Except.ok false) ∧
    Event.mergeCall ∉ (Boussole.merge_pr envNoVotes cfgW).1 ∧
    Prow.merge_pr envNoVotes cfgW =
      (Event.permissionLookup cfgW.commentSender :: [Event.fetchComments],
        Except.error 0) ∧
    Event.mergeCall ∉ (Prow.merge_pr envNoVotes cfgW).1 ∧
    (0 = 0 → ∀ m, Event.postComment m ∉ ([Event.fetchComments] :
      List Event)) :=
  c5_amended envNoVotes cfgW [Event.fetchComments] 0 [] [Event.fetchComments]
    0 (by decide) (by rfl) (by decide) (by decide) (by rfl)

/-- C6: a cherry-pick job whose initial target-branch fetch yields a sha
never issues a branch-creation call; and when the initial fetch yields no
sha, the base branch resolves, and creation succeeds, the job is exactly
the creation prefix followed by the replay loop started with currentSha
equal to the base branch head sha, so creation is attempted only in the
absent case and replay then starts from the PR base head. -/
theorem c6_branch_creation (env : Env) (cfg : Config) (target : String) :
    (∀ s, Boussole.get_branch_sha env target = some s →
      ∀ b h, Event.createBranchCall b h ∉
        (Boussole.perform_cherry_pick env cfg target).1) ∧
    (∀ bsha, Boussole.get_pr_commits env ≠ [] →
      Boussole.get_branch_sha env target = none →
      Boussole.get_branch_sha env env.prBaseRef = some bsha →
      env.createBranch target bsha = true →
      Boussole.perform_cherry_pick env cfg target =
        ([Event.fetchCommits, Event.fetchBranch target, Event.fetchPRStatus,
          Event.fetchBranch env.prBaseRef,
          Event.createBranchCall target bsha] ++
          (Boussole.cherryPickLoop env cfg target
            (Boussole.get_pr_commits env).length
            (Boussole.get_pr_commits env) 1 bsha).1,
          (Boussole.cherryPickLoop env cfg target
            (Boussole.get_pr_commits env).length
            (Boussole.get_pr_commits env) 1 bsha).2.1)) := by
  constructor
  · intro s hs b h hmem
    unfold Boussole.perform_cherry_pick at hmem
    rw [hs] at hmem
    split at hmem
    · simp at hmem
    · rcases List.mem_append.mp hmem with h1 | h1
      · simp at h1
      · rcases Boussole.cherryPickLoop_events env cfg target _ _ _ _ _ h1
          with ⟨bb, ss, h2⟩ | ⟨m, hr, h2⟩ <;> simp at h2
  · intro bsha hne hnone hbase hcreate
    unfold Boussole.perform_cherry_pick
    rw [if_neg (by simp [List.isEmpty_iff, hne]), hnone, hbase]
    simp only [hcreate, if_true]

/-- C6 witness: with the target branch rel present no creation call
appears; with rel absent, base main resolving to mhead, and creation
succeeding, the job is the creation prefix followed by the loop started at
mhead. -/
theorem c6_branch_creation_witness :
    (∀ b h, Event.createBranchCall b h ∉
      (Boussole.perform_cherry_pick envRelExists cfgW ( "rel")).1) ∧
    Boussole.perform_cherry_pick baseEnv cfgW ( "rel") =
      ([Event.fetchCommits, Event.fetchBranch ( "rel"), Event.fetchPRStatus,
        Event.fetchBranch baseEnv.prBaseRef,
        Event.createBranchCall ( "rel") ( "mhead")] ++
        (Boussole.cherryPickLoop baseEnv cfgW ( "rel")
          (Boussole.get_pr_commits baseEnv).length
          (Boussole.get_pr_commits baseEnv) 1 ( "mhead")).1,
        (Boussole.cherryPickLoop baseEnv cfgW ( "rel")
          (Boussole.get_pr_commits baseEnv).length
          (Boussole.get_pr_commits baseEnv) 1 ( "mhead")).2.1) :=
  ⟨(c6_branch_creation envRelExists cfgW ( "rel")).1 ( "t0") (by decide),
   (c6_branch_creation baseEnv cfgW ( "rel")).2 ( "mhead") (by decide)
     (by decide) (by decide) (by decide)⟩

/-- C7: a further vote comment by an author already recorded as a voter
(and distinct from the PR sender) leaves the scan result unchanged, so the
tally computed from the recorded voters is unchanged; in both
implementations the valid-vote count is at most the number of recorded
voters, and the recorded voters are deduplicated. -/
theorem c7_dedup (env : Env) (cfg : Config) (cs : List Comment)
    (c : Comment) (acc users : List String) (ev : List Event)
    (hscan : scanVotes cfg cs acc = (ev, Except.ok users))
    (hmem : c.author ∈ users)
    (hlg : matchesLgtm c.body = true)
    (hns : c.author ≠ cfg.prSender) :
    scanVotes cfg (cs ++ [c]) acc = (ev, Except.ok users) ∧
    (Boussole.tallyUsers env cfg users).1.1 ≤ users.length ∧
    (Prow.tallyUsers env cfg users).1.1 ≤ users.length ∧
    (acc.Nodup → users.Nodup) := by
  have hev : ev = [] := scanVotes_ok_events cfg cs acc users ev hscan
  subst hev
  refine ⟨?_, Boussole.tallyUsers_le env cfg users,
    Prow.tallyVotesCount_le env cfg users,
    fun hn => scanVotes_nodup cfg cs acc users [] hn hscan⟩
  rw [scanVotes_append_ok cfg cs [c] acc users hscan]
  have hins : insertUser users c.author = users := by
    unfold insertUser
    rw [if_pos (by simp [List.contains, List.elem_eq_mem, hmem])]
  simp [scanVotes, hlg, hns, hins]

/-- C7 witness: a second /lgtm comment by bob changes nothing: the scan of
both comment lists yields the single voter bob, the tally counts at most
one vote for him, and the voter list is duplicate free. -/
theorem c7_dedup_witness :
    scanVotes cfgW ([{ author := "bob", body := "/lgtm" }] ++
      [{ author := "bob", body := "/lgtm again" }]) [] =
      ([], Except.ok [( "bob")]) ∧
    (Boussole.tallyUsers baseEnv cfgW [( "bob")]).1.1 ≤
      [( "bob")].length ∧
    (Prow.tallyUsers baseEnv cfgW [( "bob")]).1.1 ≤ [( "bob")].length ∧
    (([] : List String).Nodup → ([( "bob")] : List String).Nodup) :=
  c7_dedup baseEnv cfgW [{ author := "bob", body := "/lgtm" }]
    { author := "bob", body := "/lgtm again" } [] [( "bob")] []
    (by rfl) (by decide) (by decide) (by decide)

/-- C8 counterexample: the prow merge command performs no open-state check at
all: against a PR whose state is closed it still issues the merge call
instead of terminating with a not-open short-circuit, refuting the claim
for that implementation of the merge command. -/
theorem c8_counterexample :
    envClosed.prState = ( "closed") ∧
    Event.mergeCall ∈ (Prow.merge_pr envClosed cfgW).1 := by
  exact ⟨rfl, by decide⟩

/-- C8 amended: in boussole, when the fetched PR state is not open, the
merge command run exits with code 1 right after the status fetch, with no
merge call and no posted comment; a second invocation against any
environment whose fetched state is again not open produces the identical
short-circuit, so the outcome is the same both times (the prow merge command
has no such gate). -/
theorem c8_amended (env env2 : Env) (cfg : Config)
    (h1 : env.prStatusCode = 200) (h2 : env.prState ≠ ( "open"))
    (h3 : env2.prStatusCode = 200) (h4 : env2.prState ≠ ( "open")) :
    Boussole.runMergeCommand env cfg =
      ([Event.fetchPRStatus], Except.error 1) ∧
    Boussole.runMergeCommand env2 cfg =
      ([Event.fetchPRStatus], Except.error 1) ∧
    Event.mergeCall ∉ ([Event.fetchPRStatus] : List Event) ∧
    (∀ m, Event.postComment m ∉ ([Event.fetchPRStatus] : List Event)) := by
  have key : ∀ e : Env, e.prStatusCode = 200 → e.prState ≠ ( "open") →
      Boussole.runMergeCommand e cfg =
        ([Event.fetchPRStatus], Except.error 1) := by
    intro e he1 he2
    have hb : (e.prState == ( "open")) = false := by
      simp [he2]
    unfold Boussole.runMergeCommand Boussole.check_status
    rw [if_neg (by simp [he1]), hb]
    rfl
  refine ⟨key env h1 h2, key env2 h3 h4, by decide, ?_⟩
  intro m hm
  simp at hm

/-- C8 amended witness: two invocations against the closed-PR environment
both short-circuit with exit code 1 and a trace holding only the status
fetch. -/
theorem c8_amended_witness :
    Boussole.runMergeCommand envClosed cfgW =
      ([Event.fetchPRStatus], Except.error 1) ∧
    Boussole.runMergeCommand envClosed cfgW =
      ([Event.fetchPRStatus], Except.error 1) ∧
    Event.mergeCall ∉ ([Event.fetchPRStatus] : List Event) ∧
    (∀ m, Event.postComment m ∉ ([Event.fetchPRStatus] : List Event)) :=
  c8_amended envClosed envClosed cfgW (by decide) (by decide) (by decide)
    (by decide)

/-- C9: in prow, lgtm with send_comment False returns (rather than exits)
only with a vote count at least the threshold, and consequently the
insufficient-votes branch of the prow merge_pr is unreachable: its trace
never contains a posted NOT_ENOUGH_LGTM comment. -/
theorem c9_not_enough_unreachable (env : Env) (cfg : Config)
    (ev : List Event) (v : Nat)
    (h : Prow.lgtm env cfg false = (ev, Except.ok v)) :
    cfg.lgtmThreshold ≤ (v : Int) ∧
    (∀ a b, Event.postComment (Msg.notEnoughLgtm a b) ∉
      (Prow.merge_pr env cfg).1) := by
  refine ⟨Prow.lgtm_ok_ge env cfg false ev v h, ?_⟩
  intro a b hmem
  unfold Prow.merge_pr at hmem
  split at hmem
  · simp at hmem
  · split at hmem
    · rename_i evL n heq
      rcases List.mem_cons.mp hmem with h1 | h1
      · simp at h1
      · have h2 := Prow.lgtm_events env cfg false _ (by rw [heq]; exact h1)
        rcases h2 with h3 | ⟨u, h3⟩ | ⟨u, h3⟩ | h3 | ⟨x, y, l, h3⟩ <;>
          simp at h3
    · rename_i evL vv heq
      have hge := Prow.lgtm_ok_ge env cfg false evL vv heq
      rw [if_pos hge] at hmem
      split at hmem
      · rcases List.mem_append.mp hmem with h1 | h1
        · rcases List.mem_append.mp h1 with h2 | h2
          · rcases List.mem_append.mp h2 with h3 | h3
            · rcases List.mem_cons.mp h3 with h4 | h4
              · simp at h4
              · have h5 := Prow.lgtm_events env cfg false _
                  (by rw [heq]; exact h4)
                rcases h5 with h6 | ⟨u, h6⟩ | ⟨u, h6⟩ | h6 |
                  ⟨x, y, l, h6⟩ <;> simp at h6
            · rcases List.mem_cons.mp h3 with h4 | h4 <;> simp at h4
          · rcases Prow.lookupPerms_events env cfg _ _ h2 with ⟨u, h3⟩
            simp at h3
        · simp at h1
      · rcases List.mem_append.mp hmem with h1 | h1
        · rcases List.mem_cons.mp h1 with h2 | h2
          · simp at h2
          · have h3 := Prow.lgtm_events env cfg false _
              (by rw [heq]; exact h2)
            rcases h3 with h4 | ⟨u, h4⟩ | ⟨u, h4⟩ | h4 | ⟨x, y, l, h4⟩ <;>
              simp at h4
        · rcases List.mem_cons.mp h1 with h2 | h2 <;> simp at h2

/-- C9 witness: in the baseline environment the prow lgtm function returns 1 with
threshold 1, and the prow merge_pr trace contains no insufficient-votes
comment. -/
theorem c9_not_enough_unreachable_witness :
    cfgW.lgtmThreshold ≤ ((1 : Nat) : Int) ∧
    (∀ a b, Event.postComment (Msg.notEnoughLgtm a b) ∉
      (Prow.merge_pr baseEnv cfgW).1) :=
  c9_not_enough_unreachable baseEnv cfgW
    [Event.fetchComments, Event.permissionLookup ( "bob"),
     Event.postReview] 1 (by rfl)

/-- C10: whenever the commit fetch has a non-200 status or the PR has no
commits, the cherry-pick job posts the identical error report with the
hardcoded status 404 and the text Could not fetch PR commits, returns
false, and performs no branch fetch and no replay call. -/
theorem c10_commits_error (env : Env) (cfg : Config) (target : String)
    (h : env.commitsStatus ≠ 200 ∨ env.commits = []) :
    Boussole.perform_cherry_pick env cfg target =
      ([Event.fetchCommits,
        Event.postComment (Msg.cherryPickError cfg.prNum target ( "404")
          ( "Could not fetch PR commits"))], false) ∧
    (∀ b, Event.fetchBranch b ∉
      (Boussole.perform_cherry_pick env cfg target).1) ∧
    (∀ b s, Event.replayCall b s ∉
      (Boussole.perform_cherry_pick env cfg target).1) := by
  have hcs : Boussole.get_pr_commits env = [] := by
    unfold Boussole.get_pr_commits
    rcases h with h | h
    · rw [if_pos (by simp [h])]
    · split
      · rfl
      · exact h
  have hEq : Boussole.perform_cherry_pick env cfg target =
      ([Event.fetchCommits,
        Event.postComment (Msg.cherryPickError cfg.prNum target ( "404")
          ( "Could not fetch PR commits"))], false) := by
    unfold Boussole.perform_cherry_pick
    rw [hcs]
    rfl
  refine ⟨hEq, ?_, ?_⟩
  · intro b hm
    rw [hEq] at hm
    simp at hm
  · intro b s hm
    rw [hEq] at hm
    simp at hm

/-- C10 witness: a 500 on the commit fetch and a genuinely empty commit
list produce the same 404 report and failed job. -/
theorem c10_commits_error_witness :
    Boussole.perform_cherry_pick envCommits500 cfgW ( "rel") =
      ([Event.fetchCommits,
        Event.postComment (Msg.cherryPickError cfgW.prNum ( "rel") ( "404")
          ( "Could not fetch PR commits"))], false) ∧
    Boussole.perform_cherry_pick envCommitsEmpty cfgW ( "rel") =
      ([Event.fetchCommits,
        Event.postComment (Msg.cherryPickError cfgW.prNum ( "rel") ( "404")
          ( "Could not fetch PR commits"))], false) :=
  ⟨(c10_commits_error envCommits500 cfgW ( "rel")
      (Or.inl (by decide))).1,
   (c10_commits_error envCommitsEmpty cfgW ( "rel")
      (Or.inr (by decide))).1⟩
